import Mathlib

/-!
Shallow embedding of the linuxfd wrapper layer (src/source/__init__.py):
four Python classes — eventfd, signalfd, timerfd, inotify — each owning one
kernel file descriptor.  Pure argument-processing paths are translated
directly from the Python source; the external C syscall modules
(eventfd_c, signalfd_c, timerfd_c, inotify_c) are not part of src/ and are
modelled from the specification where a claim depends on their behaviour.
-/

namespace Linuxfd

/-- Python exception kinds that the embedded operations can raise:
`OSError` carries an errno, `KeyError` is a failed dict subscript,
`IndexError` is a failed list subscript, `castError` is a failed int() cast
(Python ValueError/TypeError). -/
inductive Err where
  | OSError (e : Int)
  | KeyError
  | IndexError
  | castError
  deriving DecidableEq, Repr

/-- The errno value EINVAL (invalid argument). -/
def EINVAL : Int := 22
/-- The errno value EAGAIN (resource temporarily unavailable / would block). -/
def EAGAIN : Int := 11
/-- The errno value EBADF (bad file descriptor). -/
def EBADF : Int := 9

/-- A Python argument as far as the wrappers inspect it: either a value whose
int() cast succeeds with the given integer, or a value whose int() cast
raises. -/
inductive PyArg where
  | int (v : Int)
  | nonCastable
  deriving DecidableEq, Repr

/-- The int() cast applied by the wrappers: `some v` when the cast yields `v`,
`none` when it raises. -/
def pyInt : PyArg → Option Int
  | .int v => some v
  | .nonCastable => none

/-! ## eventfd -/

/-- The clipping expression `min(max(int(x),0),0xfffffffffffffffe)` used by
eventfd.__init__ (line 101) and eventfd.write (line 160). -/
def clipUint64 (v : Int) : Int := min (max v 0) (2 ^ 64 - 2)

/-- The initial-value path of eventfd.__init__ (source lines 99-105): cast
initval to int and clip it, raising EINVAL only when the cast fails; the
result is the value handed to the kernel creation call
`eventfd_c.eventfd(initval, flags)`. -/
def eventfd_init_kernel_value (initval : PyArg) : Except Err Int :=
  match pyInt initval with
  | none => .error (.OSError EINVAL)
  | some v => .ok (clipUint64 v)

/-- The value path of eventfd.write (source lines 158-164): cast the value to
int and clip it, raising EINVAL only when the cast fails; the clipped value is
then handed to `eventfd_c.eventfd_write(self._fd, value)`. -/
def eventfd_write_kernel_value (value : PyArg) : Except Err Int :=
  match pyInt value with
  | none => .error (.OSError EINVAL)
  | some v => .ok (clipUint64 v)

/-- Modelled from the spec: the kernel eventfd write adds the written value to
the 64-bit counter; if the addition would overflow the maximum counter value
2^64-2 and the descriptor is non-blocking, it fails with EAGAIN (spec section
4.1; the blocking variant is not modelled).  This models the external
`eventfd_c.eventfd_write` call, which is not under src/. -/
def eventfd_kernel_write (counter v : Int) : Except Err Int :=
  if counter + v > 2 ^ 64 - 2 then .error (.OSError EAGAIN)
  else .ok (counter + v)

/-- eventfd.write on a non-blocking descriptor, combining the Python value
path (source lines 158-164) with the modelled kernel addition: returns the
new kernel counter value. -/
def eventfd_write (counter : Int) (value : PyArg) : Except Err Int :=
  match eventfd_write_kernel_value value with
  | .error e => .error e
  | .ok v => eventfd_kernel_write counter v

/-! ## close (shared shape across all four wrapper classes) -/

/-- The set of file descriptors currently open in the process, as the
operating system sees them. -/
structure OsState where
  openFds : List Int
  deriving DecidableEq, Repr

/-- Modelled from the spec: os.close releases an open descriptor and fails
with EBADF when the descriptor is not open (the os module is external to
src/). -/
def os_close (s : OsState) (fd : Int) : Except Err OsState :=
  if fd ∈ s.openFds then .ok ⟨s.openFds.filter (· ≠ fd)⟩
  else .error (.OSError EBADF)

/-- The close method shared verbatim by all four wrapper classes
(source lines 113-116, 243-246, 398-401, 536-539):
`try: os.close(self._fd)` / `except: pass`.  Any exception from os.close is
swallowed, no instance attribute is written, and no exception escapes, so the
result is a total function on the OS state. -/
def wrapper_close (s : OsState) (fd : Int) : OsState :=
  match os_close s fd with
  | .ok s1 => s1
  | .error _ => s

/-! ## signalfd -/

/-- A value as Python types it at the signals() boundary: the source stores
the signal collection as a tuple while the docstring promises a set. -/
inductive PyCollection where
  | set (elems : List Int)
  | tuple (elems : List Int)
  deriving DecidableEq, Repr

/-- In-memory state of a signalfd instance: the descriptor `_fd`, the stored
`_signalset` (a Python tuple, kept here as a list), and the two flags. -/
structure Signalfd where
  fd : Int
  signalset : List Int
  isNonBlocking : Bool
  isCloseOnExec : Bool
  deriving DecidableEq, Repr

/-- The expression `tuple([int(i) for i in set(signalset)])` of
signalfd.__init__ (line 231) and signalfd.modify (line 278) on a collection
of integers: Python set() de-duplicates, and the tuple fixes one order of the
distinct elements (the concrete order of a Python set iteration is
unspecified; dedup is a deterministic stand-in). -/
def pySignalTuple (signalset : List Int) : List Int := signalset.dedup

/-- Modelled from the spec: the signalfd syscall called with fd = -1
allocates a fresh descriptor; called with an existing signalfd descriptor it
replaces that descriptor's mask in place and returns the same descriptor
(spec section 4.2: reconfiguration re-binds the kernel object in place and
preserves descriptor identity).  `freshFd` is the descriptor the kernel would
allocate in the fd = -1 case. -/
def signalfd_syscall (fd : Int) (freshFd : Int) : Int :=
  if fd = -1 then freshFd else fd

/-- signalfd.__init__ (source lines 224-235) on a valid collection of signal
numbers: store the flags, store the de-duplicated tuple, and allocate the
descriptor with `signalfd_c.signalfd(-1, self._signalset, flags)`. -/
def signalfd_init (signalset : List Int) (nonBlocking closeOnExec : Bool)
    (freshFd : Int) : Signalfd :=
  { fd := signalfd_syscall (-1) freshFd
    signalset := pySignalTuple signalset
    isNonBlocking := nonBlocking
    isCloseOnExec := closeOnExec }

/-- signalfd.modify (source lines 257-282) on a valid collection of signal
numbers: replace the flags and the stored tuple, then reassign
`self._fd = signalfd_c.signalfd(self._fd, self._signalset, flags)`. -/
def signalfd_modify (s : Signalfd) (signalset : List Int)
    (nonBlocking closeOnExec : Bool) (freshFd : Int) : Signalfd :=
  { fd := signalfd_syscall s.fd freshFd
    signalset := pySignalTuple signalset
    isNonBlocking := nonBlocking
    isCloseOnExec := closeOnExec }

/-- signalfd.fileno (source lines 249-254): return self._fd. -/
def signalfd_fileno (s : Signalfd) : Int := s.fd

/-- signalfd.signals (source lines 323-328): return self._signalset — the
stored value is the tuple built at construction or reconfiguration time, so
the returned Python object is a tuple, not a set. -/
def signalfd_signals (s : Signalfd) : PyCollection := .tuple s.signalset

/-! ## timerfd -/

/-- The kernel-held timer programming: time until next expiration and period,
in seconds.  The Python layer passes floats through unchanged; rationals
stand in for them since the claims concern only sign tests and returning the
pair, not rounding. -/
structure TimerState where
  value : Rat
  interval : Rat
  deriving DecidableEq, Repr

/-- Modelled from the spec: timerfd_settime rejects negative timer values
with EINVAL, leaving the programming unchanged; otherwise it atomically
installs the new (value, interval) programming and returns the previous one
(spec section 4.3; timerfd_c is external to src/). -/
def timerfd_settime_kernel (st : TimerState) (value interval : Rat) :
    Except Err ((Rat × Rat) × TimerState) :=
  if value < 0 ∨ interval < 0 then .error (.OSError EINVAL)
  else .ok ((st.value, st.interval), ⟨value, interval⟩)

/-- The flag constant TFD_TIMER_ABSTIME of the platform ABI. -/
def TFD_TIMER_ABSTIME : Int := 1

/-- timerfd.settime (source lines 428-453): compute the flags from the
absolute argument, then forward to
`timerfd_c.timerfd_settime(self._fd, flags, value, interval)` and return its
result, which is the old (value, interval) pair. -/
def timerfd_settime (st : TimerState) (value interval : Rat)
    (absolute : Bool) : Except Err ((Rat × Rat) × TimerState) :=
  let _flags : Int := if absolute then TFD_TIMER_ABSTIME else 0
  timerfd_settime_kernel st value interval

/-! ## inotify -/

/-- The inotify instance's `_wd` attribute: a Python dict mapping pathnames
to watch descriptors, embedded as an insertion-ordered association list with
unique keys. -/
abbrev WdDict := List (String × Int)

/-- Python dict subscript assignment d[k] = v: update the value in place when
the key exists (keeping its position), otherwise append the new entry. -/
def dictSet (d : WdDict) (k : String) (v : Int) : WdDict :=
  if d.any (fun e => e.1 = k) then
    d.map (fun e => if e.1 = k then (k, v) else e)
  else d ++ [(k, v)]

/-- Python dict subscript read d[k]: `some` of the stored value, or `none`
when the subscript would raise KeyError. -/
def dictGet (d : WdDict) (k : String) : Option Int :=
  (d.find? (fun e => e.1 = k)).map (fun e => e.2)

/-- Python `del d[k]`: drop the entry with the given key. -/
def dictDel (d : WdDict) (k : String) : WdDict :=
  d.filter (fun e => e.1 ≠ k)

/-- The reverse lookup of inotify.read (source line 649):
`[key for key,value in self._wd.items() if value == wd][0]` — the first key
in dict order whose value equals the watch descriptor, or `none` when the
subscript [0] on the empty list would raise IndexError. -/
def reverseLookup (d : WdDict) (w : Int) : Option String :=
  (d.find? (fun e => e.2 = w)).map (fun e => e.1)

/-- One raw kernel inotify event as delivered by
`inotify_c.inotify_read`: a (wd, mask, cookie, name) tuple. -/
structure RawEvent where
  wd : Int
  mask : Nat
  cookie : Nat
  name : String
  deriving DecidableEq, Repr

/-- One decoded event tuple (pathname, name, mask, cookie) as returned by
inotify.read. -/
abbrev DecodedEvent := String × String × Nat × Nat

/-- The decoding loop of inotify.read (source lines 645-651): for each raw
event in delivery order, reverse-look-up the watch descriptor and append the
(pathname, name, mask, cookie) tuple; a failed reverse lookup raises
IndexError and discards the partial result. -/
def inotify_read_decode (d : WdDict) : List RawEvent → Except Err (List DecodedEvent)
  | [] => .ok []
  | e :: rest =>
    match reverseLookup d e.wd with
    | none => .error .IndexError
    | some pathname =>
      match inotify_read_decode d rest with
      | .error err => .error err
      | .ok tl => .ok ((pathname, e.name, e.mask, e.cookie) :: tl)

/-- The `_wd` mapping of a freshly constructed inotify instance:
`self._wd = dict()` (source line 524). -/
def inotify_init_wd : WdDict := []

/-- The inotify event mask bit IN_Q_OVERFLOW of the platform ABI (0x4000),
carried by a queue-overflow event, whose watch descriptor field is -1. -/
def IN_Q_OVERFLOW : Nat := 16384

/-- The inotify event mask bit IN_IGNORED of the platform ABI (0x8000),
emitted when the kernel drops a watch (explicitly removed, target deleted,
or a one-shot watch that fired). -/
def IN_IGNORED : Nat := 32768

/-- Modelled from the spec: the kernel side of one inotify instance — the
set of live watches, keyed by the watched target (paths stand in for inodes)
with their kernel-assigned watch descriptors, plus the next fresh
descriptor.  The inotify_c module holding the real syscalls is not under
src/. -/
structure KernelInotify where
  watches : List (String × Int)
  nextWd : Int
  deriving DecidableEq, Repr

/-- The watch descriptors currently held by the kernel for this instance. -/
def kernelWds (k : KernelInotify) : List Int := k.watches.map (fun e => e.2)

/-- Modelled from the spec: inotify_add_watch registers a watch for a path
and returns its descriptor — the existing descriptor when the target is
already watched by this instance (re-add replaces or extends the mask in
place), a fresh one otherwise. -/
def inotify_add_watch (k : KernelInotify) (p : String) : Int × KernelInotify :=
  match k.watches.find? (fun e => e.1 = p) with
  | some e => (e.2, k)
  | none => (k.nextWd, ⟨k.watches ++ [(p, k.nextWd)], k.nextWd + 1⟩)

/-- Modelled from the spec: inotify_rm_watch drops a live watch by its
descriptor; it fails (EINVAL) when the descriptor is not a live watch of
this instance, leaving the kernel state unchanged. -/
def inotify_rm_watch (k : KernelInotify) (w : Int) : Except Err KernelInotify :=
  if w ∈ kernelWds k then
    .ok ⟨k.watches.filter (fun e => e.2 ≠ w), k.nextWd⟩
  else .error (.OSError EINVAL)

/-- inotify.add (source lines 550-607) for an existing path: after the mask
bookkeeping (IN_MASK_ADD cleared or set from replace, which does not affect
the mapping), execute
`self._wd[pathname] = inotify_c.inotify_add_watch(self._fd, pathname, mask)`. -/
def inotify_add (k : KernelInotify) (d : WdDict) (p : String) :
    KernelInotify × WdDict :=
  let r := inotify_add_watch k p
  (r.2, dictSet d p r.1)

/-- inotify.remove (source lines 610-616): read `self._wd[pathname]` (a
missing path raises KeyError before any kernel call), call
`inotify_c.inotify_rm_watch` on the watch descriptor, and only if that
succeeded execute `del self._wd[pathname]`.  Returns the raised exception or
(), together with the kernel state and mapping after the call. -/
def inotify_remove (k : KernelInotify) (d : WdDict) (p : String) :
    Except Err Unit × KernelInotify × WdDict :=
  match dictGet d p with
  | none => (.error .KeyError, k, d)
  | some w =>
    match inotify_rm_watch k w with
    | .error err => (.error err, k, d)
    | .ok k1 => (.ok (), k1, dictDel d p)

/-- Modelled from the spec: a read observing a terminal IN_IGNORED event for
a watch — the kernel has already dropped the watch descriptor (target
deleted, or one-shot watch fired), and the wrapper's read decodes the event
without ever touching `self._wd` (source lines 645-651 never write the
mapping), so the mapping keeps the now-dangling entry. -/
def inotify_read_ignored (k : KernelInotify) (d : WdDict) (w : Int) :
    KernelInotify × WdDict :=
  (⟨k.watches.filter (fun e => e.2 ≠ w), k.nextWd⟩, d)

/-- The mapping invariant of spec section 3: every watch descriptor held by
the kernel has exactly one path entry in the mapping, and every mapping
entry names a live kernel watch descriptor (decidable form). -/
def consistentB (k : KernelInotify) (d : WdDict) : Bool :=
  (kernelWds k).all (fun w => d.countP (fun e => e.2 == w) == 1) &&
  d.all (fun e => (kernelWds k).contains e.2)

/-- A two-step run reaching a state that violates the mapping invariant:
construct the instance, add a watch on one path, then read a terminal
IN_IGNORED event for that watch after the kernel invalidated it (e.g. the
watched file was deleted). -/
def invariantGapRun : KernelInotify × WdDict :=
  let s1 := inotify_add ⟨[], 1⟩ inotify_init_wd "/a"
  inotify_read_ignored s1.1 s1.2 1

/-! ## Theorems -/

/-- C5: for every integer-castable initial value with integer value v, the
value handed to the kernel creation call equals min(max(v, 0), 2^64-2): it is
silently clipped into [0, 2^64-2] and never rejected with an error. -/
theorem eventfd_initval_clipped (v : Int) :
    eventfd_init_kernel_value (.int v) = .ok (min (max v 0) (2 ^ 64 - 2)) ∧
    0 ≤ clipUint64 v ∧ clipUint64 v ≤ 2 ^ 64 - 2 := by
  refine ⟨rfl, le_min (le_max_right v 0) (by norm_num), min_le_right _ _⟩

/-- C4 counterexample: the out-of-range integer 2^64-1 is not rejected by
eventfd.write — the claim says it fails with InvalidArgument and leaves the
counter unchanged, but the write succeeds and raises the counter from 0 to
2^64-2. -/
theorem eventfd_write_out_of_range_not_rejected :
    eventfd_write 0 (.int (2 ^ 64 - 1)) = .ok (2 ^ 64 - 2) := by
  norm_num [eventfd_write, eventfd_write_kernel_value, pyInt,
    eventfd_kernel_write, clipUint64]

/-- C4 amended: for every integer value, eventfd.write clips the value into
[0, 2^64-2] and hands the clipped value to the kernel counter addition;
InvalidArgument is raised only when the value is not integer-castable. -/
theorem eventfd_write_clips_value (counter v : Int) :
    eventfd_write_kernel_value (.int v) = .ok (clipUint64 v) ∧
    0 ≤ clipUint64 v ∧ clipUint64 v ≤ 2 ^ 64 - 2 ∧
    eventfd_write counter (.int v) = eventfd_kernel_write counter (clipUint64 v) ∧
    eventfd_write_kernel_value .nonCastable = .error (.OSError EINVAL) := by
  exact ⟨rfl, le_min (le_max_right v 0) (by norm_num), min_le_right _ _, rfl, rfl⟩

/-- C9: after a first close has released the descriptor, the underlying
os.close raises EBADF, but the wrapper's close swallows it: a second close
call raises no error and changes nothing. -/
theorem wrapper_close_second_call_noop (s : OsState) (fd : Int)
    (h : fd ∈ s.openFds) :
    os_close (wrapper_close s fd) fd = .error (.OSError EBADF) ∧
    wrapper_close (wrapper_close s fd) fd = wrapper_close s fd := by
  have h1 : wrapper_close s fd = ⟨s.openFds.filter (· ≠ fd)⟩ := by
    simp [wrapper_close, os_close, h]
  have h2 : fd ∉ s.openFds.filter (· ≠ fd) := by
    simp [List.mem_filter]
  refine ⟨?_, ?_⟩
  · rw [h1]
    simp [os_close, h2]
  · rw [h1]
    simp [wrapper_close, os_close, h2]

/-- C9 witness: closing descriptor 3 twice from the state where it is open. -/
theorem wrapper_close_second_call_noop_witness :
    os_close (wrapper_close ⟨[3]⟩ 3) 3 = .error (.OSError EBADF) ∧
    wrapper_close (wrapper_close ⟨[3]⟩ 3) 3 = wrapper_close ⟨[3]⟩ 3 :=
  wrapper_close_second_call_noop ⟨[3]⟩ 3 (by decide)

/-- C6: reconfiguring an existing signalfd instance (its descriptor is a
real descriptor, not -1) leaves fileno() unchanged: the syscall re-binds the
existing descriptor in place and never allocates a new one. -/
theorem signalfd_modify_preserves_fileno (s : Signalfd) (signalset : List Int)
    (nB cOE : Bool) (freshFd : Int) (h : s.fd ≠ -1) :
    signalfd_fileno (signalfd_modify s signalset nB cOE freshFd) =
      signalfd_fileno s := by
  simp [signalfd_fileno, signalfd_modify, signalfd_syscall, h]

/-- C6 witness: a constructed instance with kernel-allocated descriptor 5 is
reconfigured and keeps descriptor 5. -/
theorem signalfd_modify_preserves_fileno_witness :
    signalfd_fileno
        (signalfd_modify (signalfd_init [2] false false 5) [9] true false 7) =
      signalfd_fileno (signalfd_init [2] false false 5) :=
  signalfd_modify_preserves_fileno (signalfd_init [2] false false 5) [9]
    true false 7 (by decide)

/-- C8 code evaluation: constructed from the duplicate-bearing collection
(15, 15, 2), signals() returns the de-duplicated value as a Python tuple —
not as a set, contradicting the docstring and the spec. -/
theorem signalfd_signals_returns_tuple :
    signalfd_signals (signalfd_init [15, 15, 2] false false 3) =
      PyCollection.tuple [15, 2] ∧
    (∀ l, signalfd_signals (signalfd_init [15, 15, 2] false false 3) ≠
      PyCollection.set l) := by
  constructor
  · decide
  · intro l hl
    simp [signalfd_signals] at hl

/-- C7: for non-negative initial delay and interval, timerfd.settime rearms
the timer and returns the previous (value, interval) programming; for a
negative initial delay or interval it fails with EINVAL. -/
theorem timerfd_settime_returns_previous_and_rejects_negative
    (st : TimerState) (value interval : Rat) (absolute : Bool) :
    (0 ≤ value → 0 ≤ interval →
      timerfd_settime st value interval absolute =
        .ok ((st.value, st.interval), ⟨value, interval⟩)) ∧
    (value < 0 ∨ interval < 0 →
      timerfd_settime st value interval absolute =
        .error (.OSError EINVAL)) := by
  constructor
  · intro h1 h2
    have hn : ¬(value < 0 ∨ interval < 0) := by
      push_neg
      exact ⟨h1, h2⟩
    simp only [timerfd_settime, timerfd_settime_kernel]
    rw [if_neg hn]
  · intro h
    simp only [timerfd_settime, timerfd_settime_kernel]
    rw [if_pos h]

/-- C7 witness: rearming a timer programmed at (1, 2) with delay 3 and
interval 4 returns the previous pair (1, 2). -/
theorem timerfd_settime_witness :
    timerfd_settime ⟨1, 2⟩ 3 4 false = .ok ((1, 2), ⟨3, 4⟩) :=
  (timerfd_settime_returns_previous_and_rejects_negative ⟨1, 2⟩ 3 4 false).1
    (by norm_num) (by norm_num)

/-- C1: when every delivered raw event's watch descriptor has an entry in
the mapping, inotify.read returns exactly one (pathname, name, mask, cookie)
tuple per raw event, in the exact delivery order, with the pathname obtained
by reverse lookup of the event's watch descriptor in the mapping. -/
theorem inotify_read_maps_events_in_order (d : WdDict) (events : List RawEvent)
    (h : ∀ e ∈ events, (reverseLookup d e.wd).isSome) :
    inotify_read_decode d events =
      .ok (events.map (fun e =>
        ((reverseLookup d e.wd).getD "", e.name, e.mask, e.cookie))) := by
  induction events with
  | nil => rfl
  | cons e rest ih =>
    have he : (reverseLookup d e.wd).isSome := h e (List.mem_cons_self _ _)
    obtain ⟨p, hp⟩ := Option.isSome_iff_exists.mp he
    have hrest := ih (fun x hx => h x (List.mem_cons_of_mem _ hx))
    simp [inotify_read_decode, hp, hrest]

/-- C1 witness: one raw event on the watched path of a one-entry mapping
decodes to exactly its tuple. -/
theorem inotify_read_maps_events_in_order_witness :
    inotify_read_decode [("/a", 1)] [⟨1, 2, 0, "f"⟩] =
      .ok [("/a", "f", 2, 0)] := by
  simpa using
    inotify_read_maps_events_in_order [("/a", 1)] [⟨1, 2, 0, "f"⟩] (by decide)

/-- C10: from the freshly constructed WatchSet state (empty mapping), a
delivered queue-overflow event, whose watch descriptor -1 has no mapping
entry, makes read raise the untyped IndexError from the reverse lookup
instead of returning events or a typed error. -/
theorem inotify_read_unmapped_wd_index_error :
    inotify_read_decode inotify_init_wd [⟨-1, IN_Q_OVERFLOW, 0, ""⟩] =
      .error .IndexError := by rfl

/-- C2 code evaluation: the mapping invariant holds after watching one path,
but the reachable state in which the kernel invalidated that watch (terminal
IN_IGNORED event observed by a read, which never purges the mapping)
violates it: the mapping keeps an entry whose watch descriptor the kernel no
longer holds. -/
theorem inotify_invariant_broken_by_kernel_invalidation :
    consistentB (inotify_add ⟨[], 1⟩ inotify_init_wd "/a").1
        (inotify_add ⟨[], 1⟩ inotify_init_wd "/a").2 = true ∧
    consistentB invariantGapRun.1 invariantGapRun.2 = false := by
  constructor
  · decide
  · decide

/-- C3: unwatching a path that was never registered raises KeyError (the
dict subscript fails before any kernel call) and leaves mapping and kernel
unchanged; unwatching a registered path whose watch is live removes both the
kernel watch and the mapping entry; when the kernel call fails, the mapping
and the kernel state are left unchanged — no entry is lost and none is
orphaned by the call. -/
theorem inotify_remove_behavior (k : KernelInotify) (d : WdDict) (p : String) :
    (dictGet d p = none → inotify_remove k d p = (.error .KeyError, k, d)) ∧
    (∀ w, dictGet d p = some w → w ∈ kernelWds k →
      inotify_remove k d p =
        (.ok (), ⟨k.watches.filter (fun e => e.2 ≠ w), k.nextWd⟩, dictDel d p)) ∧
    (∀ w, dictGet d p = some w → w ∉ kernelWds k →
      inotify_remove k d p = (.error (.OSError EINVAL), k, d)) := by
  refine ⟨?_, ?_, ?_⟩
  · intro hnone
    simp [inotify_remove, hnone]
  · intro w hw hmem
    simp [inotify_remove, hw, inotify_rm_watch, hmem]
  · intro w hw hmem
    simp [inotify_remove, hw, inotify_rm_watch, hmem]

/-- C3 witness: unwatching the registered path of a one-watch instance
removes the kernel watch and the mapping entry. -/
theorem inotify_remove_behavior_witness :
    inotify_remove ⟨[("/a", 1)], 2⟩ [("/a", 1)] "/a" =
      (.ok (), ⟨[], 2⟩, []) := by
  simpa using
    (inotify_remove_behavior ⟨[("/a", 1)], 2⟩ [("/a", 1)] "/a").2.1 1
      (by decide) (by decide)

end Linuxfd
